import Mathlib

/-!
Shallow embedding of `src/accuradiolib/accuradiolib.py`.

The module scrapes the AccuRadio web site.  Decoded JSON documents are
modelled by the inductive type `Json`; Python `None` and JSON `null`
coincide as `Json.null`, which matches `json.loads` (JSON `null` decodes to
Python `None`).  Python runtime exceptions that the code can raise are
modelled by `PyError`; operations that can raise return `Except PyError α`.

The two external effects, `json.loads` and `requests.get`, are passed in as
explicit parameters `jsonLoads : List Char → Option Json` (returning `none`
when the text is not valid JSON) and `http : List Char → List Char`
(mapping a URL to the response body).  Texts manipulated by slicing and
marker search are `List Char`, mirroring Python string indexing.
-/

inductive Json where
  | null : Json
  | bool (b : Bool) : Json
  | num (n : Int) : Json
  | str (s : String) : Json
  | arr (xs : List Json) : Json
  | obj (kvs : List (String × Json)) : Json

mutual

/-- Structural equality on `Json`, mirroring Python `==` on decoded values. -/
def Json.beq : Json → Json → Bool
  | .null, .null => true
  | .bool a, .bool b => a == b
  | .num a, .num b => a == b
  | .str a, .str b => a == b
  | .arr a, .arr b => Json.beqList a b
  | .obj a, .obj b => Json.beqObj a b
  | _, _ => false

def Json.beqList : List Json → List Json → Bool
  | [], [] => true
  | x :: xs, y :: ys => Json.beq x y && Json.beqList xs ys
  | _, _ => false

def Json.beqObj : List (String × Json) → List (String × Json) → Bool
  | [], [] => true
  | (k1, v1) :: xs, (k2, v2) :: ys => k1 == k2 && Json.beq v1 v2 && Json.beqObj xs ys
  | _, _ => false

end

/-- Python exceptions raised (or propagated) by the code under analysis. -/
inductive PyError where
  | markerNotFound (msg : List Char) : PyError
  | invalidData (data : List Char) : PyError
  | jsonDecodeError (data : List Char) : PyError
  | attributeError (msg : List Char) : PyError
  | typeError (msg : List Char) : PyError

/-- Python `d.get(key, default)`: raises `AttributeError` unless the receiver
is a dict; returns the default when the key is absent. -/
def pyGetD (j : Json) (k : String) (d : Json) : Except PyError Json :=
  match j with
  | .obj kvs => .ok ((kvs.lookup k).getD d)
  | .null => .error (.attributeError "NoneType object has no attribute get".data)
  | _ => .error (.attributeError "object has no attribute get".data)

/-- Python `d.get(key)`: like `pyGetD` with default `None`. -/
def pyGet (j : Json) (k : String) : Except PyError Json :=
  pyGetD j k Json.null

/-- Python iteration `for x in j`: lists yield their elements, strings their
characters, dicts their keys; `None`, booleans and numbers raise
`TypeError`. -/
def pyIter : Json → Except PyError (List Json)
  | .arr xs => .ok xs
  | .str s => .ok (s.data.map (fun c => Json.str (String.mk [c])))
  | .obj kvs => .ok (kvs.map (fun kv => Json.str kv.1))
  | .null => .error (.typeError "NoneType object is not iterable".data)
  | .bool _ => .error (.typeError "bool object is not iterable".data)
  | .num _ => .error (.typeError "int object is not iterable".data)

mutual

/-- Python `repr()` of a decoded JSON value.  String escaping inside reprs
is simplified (no escape sequences), which is exact for the plain-string
URL parameters this library ever interpolates. -/
def pyRepr : Json → List Char
  | .null => "None".data
  | .bool true => "True".data
  | .bool false => "False".data
  | .num n => (toString n).data
  | .str s => ['\x27'] ++ s.data ++ ['\x27']
  | .arr xs => ['['] ++ pyReprList xs ++ [']']
  | .obj kvs => ['\x7b'] ++ pyReprObj kvs ++ ['\x7d']

def pyReprList : List Json → List Char
  | [] => []
  | [x] => pyRepr x
  | x :: xs => pyRepr x ++ ", ".data ++ pyReprList xs

def pyReprObj : List (String × Json) → List Char
  | [] => []
  | [(k, v)] => ['\x27'] ++ k.data ++ ['\x27'] ++ ": ".data ++ pyRepr v
  | (k, v) :: kvs =>
    ['\x27'] ++ k.data ++ ['\x27'] ++ ": ".data ++ pyRepr v ++ ", ".data ++ pyReprObj kvs

end

/-- Python `str()` of a decoded JSON value, as interpolated by an f-string:
scalars print bare, containers print as their reprs. -/
def pyStr : Json → List Char
  | .null => "None".data
  | .bool true => "True".data
  | .bool false => "False".data
  | .num n => (toString n).data
  | .str s => s.data
  | .arr xs => pyRepr (.arr xs)
  | .obj kvs => pyRepr (.obj kvs)

/-- Search engine of Python `text.find(pat, i)`: try positions `i, i+1, ...`
for `fuel` steps, returning the first position where `pat` is a prefix of
the remaining text. -/
def findFrom (text pat : List Char) : Nat → Nat → Option Nat
  | _, 0 => none
  | i, Nat.succ fuel =>
    if pat.isPrefixOf (text.drop i) then some i else findFrom text pat (i + 1) fuel

/-- Python `text.find(pat, start)` (with `find()` itself being
`strFind text pat 0`): the least index `i ≥ start` at which `pat` occurs,
`none` standing for Python result `-1`. -/
def strFind (text pat : List Char) (start : Nat) : Option Nat :=
  if start ≤ text.length then findFrom text pat start (text.length + 1 - start) else none

def start_marker : List Char := "__PRELOADED_STATE__ =".data

def end_marker : List Char := "\x7d</script>".data

/-- `Service._parse_configuration_from_source(text)`.  Returns the parse
result together with the list of log messages emitted (in order); the only
logging call in the function is `LOGGER.error` on the decode-failure path. -/
def _parse_configuration_from_source (jsonLoads : List Char → Option Json)
    (text : List Char) : Except PyError Json × List (List Char) :=
  match strFind text start_marker 0 with
  | none =>
    (.error (.markerNotFound
      ("Could not find starting marker ".data ++ start_marker ++ " in text: ".data ++ text)), [])
  | some s0 =>
    let start := s0 + start_marker.length
    match strFind text end_marker start with
    | none =>
      (.error (.markerNotFound
        ("Could not find end marker ".data ++ end_marker ++ " in text: ".data ++ text)), [])
    | some e =>
      let data := (text.drop start).take (e - start) ++ ['\x7d']
      match jsonLoads data with
      | some v => (.ok v, [])
      | none => (.error (.invalidData data), ["Unable to parse data as json.".data])

/-- The `Brand` dataclass.  Python dataclasses do not enforce the annotated
field types at runtime, so every field holds a raw decoded value. -/
structure Brand where
  channels : Json
  _id : Json
  canonical_url : Json
  param : Json
  name : Json

/-- The field names of the `Brand` dataclass, in declaration order. -/
def brandFields : List String := ["channels", "_id", "canonical_url", "param", "name"]

/-- `Brand(**entry)`: keyword construction of the dataclass.  Raises
`TypeError` when the entry is not a mapping, has a key that is not a field,
or lacks one of the five fields. -/
def mkBrand (j : Json) : Except PyError Brand :=
  match j with
  | .obj kvs =>
    if kvs.all (fun kv => brandFields.contains kv.1) then
      match kvs.lookup "channels", kvs.lookup "_id", kvs.lookup "canonical_url",
          kvs.lookup "param", kvs.lookup "name" with
      | some c, some i, some cu, some p, some n => .ok ⟨c, i, cu, p, n⟩
      | _, _, _, _, _ =>
        .error (.typeError "Brand.__init__ missing required positional argument".data)
    else .error (.typeError "Brand.__init__ got an unexpected keyword argument".data)
  | _ => .error (.typeError "argument of type Brand after ** must be a mapping".data)

/-- `Brand.oid`: `self._id.get("$oid")`. -/
def Brand.oid (b : Brand) : Except PyError Json :=
  pyGet b._id "$oid"

/-- A `Channel` wraps the raw decoded entry it was constructed from (the
`service` back-reference only feeds `media_uri`, which is not modelled). -/
structure Channel where
  _data : Json

/-- `Channel.id`: `self._data.get("_id", {}).get("$oid")`. -/
def Channel.id (c : Channel) : Except PyError Json :=
  match pyGetD c._data "_id" (Json.obj []) with
  | .error e => .error e
  | .ok i => pyGet i "$oid"

/-- `Channel.name`: `self._data.get("name")`. -/
def Channel.name (c : Channel) : Except PyError Json :=
  pyGet c._data "name"

/-- `Channel.description`: `self._data.get("description")`. -/
def Channel.description (c : Channel) : Except PyError Json :=
  pyGet c._data "description"

/-- `Channel.logo`: always `None`. -/
def Channel.logo (_ : Channel) : Json := Json.null

/-- `response.json()`: decode the response body, raising
`json.JSONDecodeError` when it is not valid JSON. -/
def responseJson (jsonLoads : List Char → Option Json) (body : List Char) :
    Except PyError Json :=
  match jsonLoads body with
  | some v => .ok v
  | none => .error (.jsonDecodeError body)

namespace Service

/-- `Service.url`, set in `__init__`. -/
def url : List Char := "https://www.accuradio.com".data

/-- `Service._data`: fetch the root page and parse the embedded state out of
its body (the log output of the parse is dropped here, as `_data` only
propagates the value or the exception). -/
def _data (jsonLoads : List Char → Option Json) (http : List Char → List Char) :
    Except PyError Json :=
  (_parse_configuration_from_source jsonLoads (http url)).1

/-- The value `self._data.get("content").get("genres", {}).get("brands")`
iterated over by `Service._brands`. -/
def brandsValue (jsonLoads : List Char → Option Json) (http : List Char → List Char) :
    Except PyError Json :=
  match _data jsonLoads http with
  | .error e => .error e
  | .ok d =>
    match pyGet d "content" with
    | .error e => .error e
    | .ok c =>
      match pyGetD c "genres" (Json.obj []) with
      | .error e => .error e
      | .ok g => pyGet g "brands"

/-- The body of the `_brands` generator loop: build a `Brand` from each
entry in order, propagating the first construction failure. -/
def brandList : List Json → Except PyError (List Brand)
  | [] => .ok []
  | j :: js =>
    match mkBrand j with
    | .error e => .error e
    | .ok b =>
      match brandList js with
      | .error e => .error e
      | .ok bs => .ok (b :: bs)

/-- `Service._brands`, with the generator materialised: iterate the brands
value and build a `Brand` from each entry.  Any exception raised while
iterating or constructing propagates. -/
def _brands (jsonLoads : List Char → Option Json) (http : List Char → List Char) :
    Except PyError (List Brand) :=
  match brandsValue jsonLoads http with
  | .error e => .error e
  | .ok v =>
    match pyIter v with
    | .error e => .error e
    | .ok items => brandList items

/-- The URL `f"{self.url}/c/m/json/genre/?param={brand.param}"`. -/
def genreUrl (param : Json) : List Char :=
  url ++ "/c/m/json/genre/?param=".data ++ pyStr param

/-- `Service.channels`, with the generator materialised: for each brand,
fetch the genre endpoint, decode the body, iterate its `channels` value and
wrap each entry in a `Channel`. -/
def channelsOfBrand (jsonLoads : List Char → Option Json)
    (http : List Char → List Char) (b : Brand) : Except PyError (List Channel) :=
  match responseJson jsonLoads (http (genreUrl b.param)) with
  | .error e => .error e
  | .ok j =>
    match pyGet j "channels" with
    | .error e => .error e
    | .ok cv =>
      match pyIter cv with
      | .error e => .error e
      | .ok items => .ok (items.map (fun c => Channel.mk c))

/-- The body of the `channels` generator loop over the brands. -/
def channelList (jsonLoads : List Char → Option Json)
    (http : List Char → List Char) : List Brand → Except PyError (List Channel)
  | [] => .ok []
  | b :: bs =>
    match channelsOfBrand jsonLoads http b with
    | .error e => .error e
    | .ok cs =>
      match channelList jsonLoads http bs with
      | .error e => .error e
      | .ok rest => .ok (cs ++ rest)

def channels (jsonLoads : List Char → Option Json) (http : List Char → List Char) :
    Except PyError (List Channel) :=
  match _brands jsonLoads http with
  | .error e => .error e
  | .ok bs => channelList jsonLoads http bs

/-- The scan of `next((channel for channel in self.channels if channel.id ==
channel_id), None)`: walk the channel list, computing each `id` (which may
raise) and stopping at the first match. -/
def findChannelById (cid : Json) : List Channel → Except PyError (Option Channel)
  | [] => .ok none
  | c :: rest =>
    match Channel.id c with
    | .error e => .error e
    | .ok i => if Json.beq i cid then .ok (some c) else findChannelById cid rest

/-- `Service.get_channel_by_id(channel_id)`. -/
def get_channel_by_id (jsonLoads : List Char → Option Json)
    (http : List Char → List Char) (channel_id : Json) :
    Except PyError (Option Channel) :=
  match channels jsonLoads http with
  | .error e => .error e
  | .ok cs => findChannelById channel_id cs

end Service

theorem findFrom_eq_some (text pat : List Char) (s i fuel : Nat)
    (hpre : pat.isPrefixOf (text.drop i) = true) (hsi : s ≤ i) (hfuel : i < s + fuel)
    (hmin : ∀ j, s ≤ j → j < i → pat.isPrefixOf (text.drop j) = false) :
    findFrom text pat s fuel = some i := by
  induction fuel generalizing s with
  | zero => omega
  | succ fuel ih =>
    rw [findFrom]
    rcases Nat.lt_or_ge s i with hlt | hge
    · rw [hmin s le_rfl hlt]
      simp only [Bool.false_eq_true, if_false]
      exact ih (s + 1) hlt (by omega) (fun j h1 h2 => hmin j (by omega) h2)
    · have hse : s = i := Nat.le_antisymm hsi hge
      subst hse
      rw [hpre]
      simp

theorem findFrom_eq_none (text pat : List Char) (s fuel : Nat)
    (h : ∀ j, s ≤ j → j < s + fuel → pat.isPrefixOf (text.drop j) = false) :
    findFrom text pat s fuel = none := by
  induction fuel generalizing s with
  | zero => rfl
  | succ fuel ih =>
    rw [findFrom]
    rw [h s le_rfl (by omega)]
    simp only [Bool.false_eq_true, if_false]
    exact ih (s + 1) (fun j h1 h2 => h j (by omega) (by omega))

theorem strFind_eq_some (text pat : List Char) (s i : Nat)
    (hpre : pat.isPrefixOf (text.drop i) = true) (hsi : s ≤ i) (hlen : i ≤ text.length)
    (hmin : ∀ j, s ≤ j → j < i → pat.isPrefixOf (text.drop j) = false) :
    strFind text pat s = some i := by
  unfold strFind
  rw [if_pos (Nat.le_trans hsi hlen)]
  exact findFrom_eq_some text pat s i _ hpre hsi (by omega) hmin

theorem strFind_eq_none (text pat : List Char) (s : Nat)
    (h : ∀ j, s ≤ j → j ≤ text.length → pat.isPrefixOf (text.drop j) = false) :
    strFind text pat s = none := by
  unfold strFind
  split
  · next hs => exact findFrom_eq_none _ _ _ _ (fun j h1 h2 => h j h1 (by omega))
  · rfl

theorem isPrefixOf_append (l₁ l₂ : List Char) : l₁.isPrefixOf (l₁ ++ l₂) = true := by
  rw [List.isPrefixOf_iff_prefix]
  exact List.prefix_append l₁ l₂

/-- Both markers found at their first occurrences: on a text decomposed as
`pre ++ start_marker ++ content ++ end_marker ++ suffix` (the shown
occurrences being the first ones), the parse reduces to decoding the
repaired slice `content ++ "\x7d"`. -/
theorem parse_on_marked_text
    (jsonLoads : List Char → Option Json) (pre content suffix : List Char)
    (hstart : ∀ j, j < pre.length →
      start_marker.isPrefixOf
        ((pre ++ start_marker ++ content ++ end_marker ++ suffix).drop j) = false)
    (hend : ∀ j, j < pre.length + start_marker.length + content.length →
      pre.length + start_marker.length ≤ j →
      end_marker.isPrefixOf
        ((pre ++ start_marker ++ content ++ end_marker ++ suffix).drop j) = false) :
    _parse_configuration_from_source jsonLoads
      (pre ++ start_marker ++ content ++ end_marker ++ suffix) =
      (match jsonLoads (content ++ ['\x7d']) with
       | some v => (.ok v, [])
       | none => (.error (.invalidData (content ++ ['\x7d'])),
           ["Unable to parse data as json.".data])) := by
  set text := pre ++ start_marker ++ content ++ end_marker ++ suffix with htext
  have e1 : text = pre ++ (start_marker ++ (content ++ (end_marker ++ suffix))) := by
    simp [htext, List.append_assoc]
  have e2 : text = (pre ++ start_marker) ++ (content ++ (end_marker ++ suffix)) := by
    simp [htext, List.append_assoc]
  have e3 : text = ((pre ++ start_marker) ++ content) ++ (end_marker ++ suffix) := by
    simp [htext, List.append_assoc]
  have hlen : text.length =
      pre.length + start_marker.length + content.length + end_marker.length + suffix.length := by
    rw [htext]; simp [List.length_append]; omega
  have h1 : strFind text start_marker 0 = some pre.length := by
    apply strFind_eq_some
    · rw [e1, List.drop_left]
      exact isPrefixOf_append _ _
    · exact Nat.zero_le _
    · omega
    · exact fun j _ hj => hstart j hj
  have h2 : strFind text end_marker (pre.length + start_marker.length) =
      some (pre.length + start_marker.length + content.length) := by
    apply strFind_eq_some
    · rw [e3, List.drop_left' (by simp only [List.length_append])]
      exact isPrefixOf_append _ _
    · exact Nat.le_add_right _ _
    · omega
    · exact fun j hj1 hj2 => hend j hj2 hj1
  have hslice : (text.drop (pre.length + start_marker.length)).take
      (pre.length + start_marker.length + content.length -
        (pre.length + start_marker.length)) = content := by
    rw [e2, List.drop_left' (by simp only [List.length_append])]
    have hc : pre.length + start_marker.length + content.length -
        (pre.length + start_marker.length) = content.length := by omega
    rw [hc]
    exact List.take_left _ _
  unfold _parse_configuration_from_source
  simp only [h1, h2, hslice]

/-- Claim C1: for every HTML text of the form
`pre ++ start_marker ++ content ++ end_marker ++ suffix` in which the shown
occurrences are the first occurrence of the start marker and the first
occurrence of the end marker after it, if `content` with a single closing
brace appended is valid JSON then `_parse_configuration_from_source`
succeeds and returns exactly the value obtained by decoding that repaired
slice directly (and logs nothing). -/
theorem C1_parse_returns_embedded_json
    (jsonLoads : List Char → Option Json) (pre content suffix : List Char) (v : Json)
    (hstart : ∀ j, j < pre.length →
      start_marker.isPrefixOf
        ((pre ++ start_marker ++ content ++ end_marker ++ suffix).drop j) = false)
    (hend : ∀ j, j < pre.length + start_marker.length + content.length →
      pre.length + start_marker.length ≤ j →
      end_marker.isPrefixOf
        ((pre ++ start_marker ++ content ++ end_marker ++ suffix).drop j) = false)
    (hjson : jsonLoads (content ++ ['\x7d']) = some v) :
    _parse_configuration_from_source jsonLoads
      (pre ++ start_marker ++ content ++ end_marker ++ suffix) = (.ok v, []) := by
  rw [parse_on_marked_text jsonLoads pre content suffix hstart hend, hjson]

/-- A concrete `json.loads` table for witnesses: decodes the single repaired
slice used by the C1 fixture. -/
def c1Loads : List Char → Option Json :=
  fun s => if s = "\x7b\"a\":1\x7d".data then some (Json.obj [("a", Json.num 1)]) else none

/-- Witness for C1 on a concrete page. -/
theorem C1_parse_returns_embedded_json_witness :
    _parse_configuration_from_source c1Loads
      ("<html>".data ++ start_marker ++ "\x7b\"a\":1".data ++ end_marker ++ "tail".data) =
      (.ok (Json.obj [("a", Json.num 1)]), []) :=
  C1_parse_returns_embedded_json c1Loads "<html>".data "\x7b\"a\":1".data "tail".data
    (Json.obj [("a", Json.num 1)]) (by decide) (by decide) rfl

/-- Claim C2: extraction fails with `MarkerNotFound` naming the start marker
(and including the offending text in the message) when the start marker is
absent, and with `MarkerNotFound` naming the end marker (again including the
text) when the start marker is present but the end marker does not occur at
or after the position just past it. -/
theorem C2_parse_marker_not_found (jsonLoads : List Char → Option Json) :
    (∀ text : List Char,
      (∀ j, j ≤ text.length → start_marker.isPrefixOf (text.drop j) = false) →
      _parse_configuration_from_source jsonLoads text =
        (.error (.markerNotFound
          ("Could not find starting marker ".data ++ start_marker ++
            " in text: ".data ++ text)), [])) ∧
    (∀ pre rest : List Char,
      (∀ j, j < pre.length →
        start_marker.isPrefixOf ((pre ++ start_marker ++ rest).drop j) = false) →
      (∀ j, j ≤ (pre ++ start_marker ++ rest).length →
        pre.length + start_marker.length ≤ j →
        end_marker.isPrefixOf ((pre ++ start_marker ++ rest).drop j) = false) →
      _parse_configuration_from_source jsonLoads (pre ++ start_marker ++ rest) =
        (.error (.markerNotFound
          ("Could not find end marker ".data ++ end_marker ++
            " in text: ".data ++ (pre ++ start_marker ++ rest))), [])) := by
  constructor
  · intro text h
    have h1 : strFind text start_marker 0 = none :=
      strFind_eq_none text start_marker 0 (fun j _ hj => h j hj)
    unfold _parse_configuration_from_source
    simp only [h1]
  · intro pre rest hstart hend
    set text := pre ++ start_marker ++ rest with htext
    have e1 : text = pre ++ (start_marker ++ rest) := by
      simp [htext, List.append_assoc]
    have hlen : text.length = pre.length + start_marker.length + rest.length := by
      rw [htext]; simp [List.length_append]; omega
    have h1 : strFind text start_marker 0 = some pre.length := by
      apply strFind_eq_some
      · rw [e1, List.drop_left]
        exact isPrefixOf_append _ _
      · exact Nat.zero_le _
      · omega
      · exact fun j _ hj => hstart j hj
    have h2 : strFind text end_marker (pre.length + start_marker.length) = none :=
      strFind_eq_none text end_marker _ (fun j hj1 hj2 => hend j hj2 hj1)
    unfold _parse_configuration_from_source
    simp only [h1, h2]

/-- Witness for C2: a text with no start marker at all, and a text whose
start marker is never followed by the end marker. -/
theorem C2_parse_marker_not_found_witness :
    _parse_configuration_from_source (fun _ => none) "no markers at all".data =
      (.error (.markerNotFound
        ("Could not find starting marker ".data ++ start_marker ++
          " in text: ".data ++ "no markers at all".data)), []) ∧
    _parse_configuration_from_source (fun _ => none) ("x".data ++ start_marker ++ "y".data) =
      (.error (.markerNotFound
        ("Could not find end marker ".data ++ end_marker ++
          " in text: ".data ++ ("x".data ++ start_marker ++ "y".data))), []) :=
  ⟨(C2_parse_marker_not_found (fun _ => none)).1 "no markers at all".data (by decide),
   (C2_parse_marker_not_found (fun _ => none)).2 "x".data "y".data (by decide) (by decide)⟩

/-- Claim C3: when both markers are found but the extracted-and-repaired
slice is not valid JSON, the parse fails with `InvalidData` carrying exactly
that slice, and the diagnostic log entry is emitted. -/
theorem C3_parse_invalid_data
    (jsonLoads : List Char → Option Json) (pre content suffix : List Char)
    (hstart : ∀ j, j < pre.length →
      start_marker.isPrefixOf
        ((pre ++ start_marker ++ content ++ end_marker ++ suffix).drop j) = false)
    (hend : ∀ j, j < pre.length + start_marker.length + content.length →
      pre.length + start_marker.length ≤ j →
      end_marker.isPrefixOf
        ((pre ++ start_marker ++ content ++ end_marker ++ suffix).drop j) = false)
    (hjson : jsonLoads (content ++ ['\x7d']) = none) :
    _parse_configuration_from_source jsonLoads
      (pre ++ start_marker ++ content ++ end_marker ++ suffix) =
      (.error (.invalidData (content ++ ['\x7d'])),
        ["Unable to parse data as json.".data]) := by
  rw [parse_on_marked_text jsonLoads pre content suffix hstart hend, hjson]

/-- Witness for C3: a concrete page whose slice is not valid JSON. -/
theorem C3_parse_invalid_data_witness :
    _parse_configuration_from_source (fun _ => none)
      ("<p>".data ++ start_marker ++ "oops".data ++ end_marker ++ "z".data) =
      (.error (.invalidData ("oops".data ++ ['\x7d'])),
        ["Unable to parse data as json.".data]) :=
  C3_parse_invalid_data (fun _ => none) "<p>".data "oops".data "z".data
    (by decide) (by decide) rfl

/-- Claim C4 (amended): when `content`, `genres`, or `brands` is absent from
the decoded state, `_brands` raises instead of yielding the empty sequence:
an `AttributeError` (`None` has no `.get`) for a missing `content`, and a
`TypeError` (iterating `None`) for a missing `genres` or `brands`. -/
theorem C4_brands_missing_key_is_error
    (jsonLoads : List Char → Option Json) (http : List Char → List Char) :
    (∀ kvs, Service._data jsonLoads http = .ok (.obj kvs) →
      kvs.lookup "content" = none →
      Service._brands jsonLoads http =
        .error (.attributeError "NoneType object has no attribute get".data)) ∧
    (∀ kvs ckvs, Service._data jsonLoads http = .ok (.obj kvs) →
      kvs.lookup "content" = some (.obj ckvs) → ckvs.lookup "genres" = none →
      Service._brands jsonLoads http =
        .error (.typeError "NoneType object is not iterable".data)) ∧
    (∀ kvs ckvs gkvs, Service._data jsonLoads http = .ok (.obj kvs) →
      kvs.lookup "content" = some (.obj ckvs) →
      ckvs.lookup "genres" = some (.obj gkvs) → gkvs.lookup "brands" = none →
      Service._brands jsonLoads http =
        .error (.typeError "NoneType object is not iterable".data)) := by
  refine ⟨fun kvs h hk => ?_, fun kvs ckvs h hk hg => ?_, fun kvs ckvs gkvs h hk hg hb => ?_⟩
  · simp only [Service._brands, Service.brandsValue, h, pyGet, pyGetD, hk,
      Option.getD_none, pyIter]
  · simp only [Service._brands, Service.brandsValue, h, pyGet, pyGetD, hk,
      Option.getD_some, hg, Option.getD_none, List.lookup, pyIter]
  · simp only [Service._brands, Service.brandsValue, h, pyGet, pyGetD, hk,
      Option.getD_some, hg, hb, Option.getD_none, pyIter]

/-- A concrete `json.loads` table for the C4 scenarios. -/
def c4Loads : List Char → Option Json := fun s =>
  if s = "\x7b\"x\":1\x7d".data then some (.obj [("x", .num 1)])
  else if s = "\x7b\"content\":\x7b\x7d\x7d".data then some (.obj [("content", .obj [])])
  else if s = "\x7b\"content\":\x7b\"genres\":\x7b\x7d\x7d\x7d".data then
    some (.obj [("content", .obj [("genres", .obj [])])])
  else none

/-- A root page whose embedded state slice is `content ++ "\x7d"`. -/
def c4Page (content : List Char) : List Char → List Char :=
  fun _ => start_marker ++ content ++ end_marker

/-- Witness for the amended C4: the three missing-key scenarios on concrete
pages. -/
theorem C4_brands_missing_key_is_error_witness :
    Service._brands c4Loads (c4Page "\x7b\"x\":1".data) =
      .error (.attributeError "NoneType object has no attribute get".data) ∧
    Service._brands c4Loads (c4Page "\x7b\"content\":\x7b\x7d".data) =
      .error (.typeError "NoneType object is not iterable".data) ∧
    Service._brands c4Loads (c4Page "\x7b\"content\":\x7b\"genres\":\x7b\x7d\x7d".data) =
      .error (.typeError "NoneType object is not iterable".data) :=
  ⟨(C4_brands_missing_key_is_error c4Loads (c4Page "\x7b\"x\":1".data)).1
      [("x", .num 1)] rfl rfl,
   (C4_brands_missing_key_is_error c4Loads (c4Page "\x7b\"content\":\x7b\x7d".data)).2.1
      [("content", .obj [])] [] rfl rfl rfl,
   (C4_brands_missing_key_is_error c4Loads
      (c4Page "\x7b\"content\":\x7b\"genres\":\x7b\x7d\x7d".data)).2.2
      [("content", .obj [("genres", .obj [])])] [("genres", .obj [])] [] rfl rfl rfl rfl⟩

/-- Counterexample to C4 as stated: on a root page whose decoded state lacks
the `content` key, `_brands` raises an `AttributeError`; it does not yield
the empty sequence. -/
theorem C4_brands_counterexample :
    Service._brands c4Loads (c4Page "\x7b\"x\":1".data) =
      .error (.attributeError "NoneType object has no attribute get".data) ∧
    Service._brands c4Loads (c4Page "\x7b\"x\":1".data) ≠ .ok [] :=
  ⟨rfl, fun h => Except.noConfusion h⟩

/-- Whether a computation raised. -/
def isError {α : Type} : Except PyError α → Bool
  | .error _ => true
  | .ok _ => false

theorem brandList_error_of_mem (items : List Json) (entry : Json)
    (hmem : entry ∈ items) (herr : isError (mkBrand entry) = true) :
    isError (Service.brandList items) = true := by
  induction items with
  | nil => cases hmem
  | cons j js ih =>
    rcases List.mem_cons.mp hmem with rfl | hmem2
    · cases hmk : mkBrand entry
      · simp [Service.brandList, hmk, isError]
      · rw [hmk] at herr; simp [isError] at herr
    · cases hmk : mkBrand j
      · simp [Service.brandList, hmk, isError]
      · have hjs := ih hmem2
        cases hbl : Service.brandList js
        · simp [Service.brandList, hmk, hbl, isError]
        · rw [hbl] at hjs; simp [isError] at hjs

/-- Claim C5: constructing a `Brand` from an entry raises whenever the entry
is missing one of the five dataclass fields or carries a field beyond them,
and such a failure propagates out of `_brands` (it is not silently
skipped). -/
theorem C5_brand_construction_strict :
    (∀ kvs : List (String × Json),
      ((∃ k ∈ brandFields, (kvs.lookup k).isNone = true) ∨
       (∃ kv ∈ kvs, brandFields.contains kv.1 = false)) →
      isError (mkBrand (.obj kvs)) = true) ∧
    (∀ jsonLoads http v items entry,
      Service.brandsValue jsonLoads http = .ok v → pyIter v = .ok items →
      entry ∈ items → isError (mkBrand entry) = true →
      isError (Service._brands jsonLoads http) = true) := by
  constructor
  · intro kvs h
    by_cases hall : kvs.all (fun kv => brandFields.contains kv.1) = true
    · rcases h with ⟨k, hkmem, hknone⟩ | ⟨kv, hkvmem, hkvf⟩
      · rw [Option.isNone_iff_eq_none] at hknone
        simp only [brandFields, List.mem_cons, List.not_mem_nil, or_false] at hkmem
        cases hc : kvs.lookup "channels" <;> cases hi : kvs.lookup "_id" <;>
          cases hcu : kvs.lookup "canonical_url" <;> cases hp : kvs.lookup "param" <;>
          cases hn : kvs.lookup "name" <;>
          first
            | (simp only [mkBrand, hc, hi, hcu, hp, hn]; split <;> rfl)
            | (rcases hkmem with rfl | rfl | rfl | rfl | rfl <;> simp_all)
      · have := (List.all_eq_true.mp hall) kv hkvmem
        rw [hkvf] at this
        cases this
    · simp only [mkBrand, isError]
      rw [if_neg hall]
  · intro jsonLoads http v items entry hbv hit hmem herr
    simp only [Service._brands, hbv, hit]
    exact brandList_error_of_mem items entry hmem herr

/-- The embedded-state slice for the C5 fixture. -/
def c5Content : List Char :=
  "\x7b\"content\":\x7b\"genres\":\x7b\"brands\":[\x7b\"name\":\"n\"\x7d]\x7d\x7d".data

/-- A concrete `json.loads` table for the C5 fixture. -/
def c5Loads : List Char → Option Json := fun s =>
  if s = c5Content ++ ['\x7d'] then
    some (.obj [("content", .obj [("genres",
      .obj [("brands", .arr [.obj [("name", .str "n")]])])])])
  else none

/-- Witness for C5: an entry missing four fields, an entry with an extra
field, and a root page whose only brand entry is malformed. -/
theorem C5_brand_construction_strict_witness :
    isError (mkBrand (.obj [("name", Json.str "n")])) = true ∧
    isError (mkBrand (.obj [("channels", Json.num 5), ("_id", Json.obj []),
      ("canonical_url", Json.str "u"), ("param", Json.str "p"),
      ("name", Json.str "n"), ("extra", Json.num 1)])) = true ∧
    isError (Service._brands c5Loads (c4Page c5Content)) = true :=
  ⟨C5_brand_construction_strict.1 [("name", Json.str "n")]
      (Or.inl ⟨"channels", by simp [brandFields], rfl⟩),
   C5_brand_construction_strict.1 _
      (Or.inr ⟨("extra", Json.num 1), by simp, rfl⟩),
   C5_brand_construction_strict.2 c5Loads (c4Page c5Content)
      (.arr [.obj [("name", .str "n")]]) [.obj [("name", .str "n")]]
      (.obj [("name", .str "n")]) rfl rfl (by simp) rfl⟩

/-- The single brand entry of the C6 fixture. -/
def c6Entry : Json :=
  .obj [("channels", .num 5), ("_id", .obj [("$oid", .str "abc")]),
    ("canonical_url", .str "u"), ("param", .str "p"), ("name", .str "n")]

/-- The embedded state of the C6 fixture:
`content.genres.brands = [c6Entry]`. -/
def c6State : Json :=
  .obj [("content", .obj [("genres", .obj [("brands", .arr [c6Entry])])])]

/-- The `Brand` built from `c6Entry`. -/
def c6Brand : Brand :=
  ⟨.num 5, .obj [("$oid", .str "abc")], .str "u", .str "p", .str "n"⟩

/-- Claim C6: on a root page whose embedded state has
`content.genres.brands` equal to the single C6 entry, the brand sequence
yields exactly one `Brand` and its `oid` is `"abc"`; in general, `oid` reads
the `$oid` field of the `_id` mapping and is `None` when that field is
absent. -/
theorem C6_single_brand_oid
    (jsonLoads : List Char → Option Json) (http : List Char → List Char) :
    (Service._data jsonLoads http = .ok c6State →
      Service._brands jsonLoads http = .ok [c6Brand] ∧
      c6Brand.oid = .ok (.str "abc")) ∧
    (∀ (b : Brand) (ikvs : List (String × Json)), b._id = .obj ikvs →
      Brand.oid b = .ok ((ikvs.lookup "$oid").getD .null)) := by
  constructor
  · intro h
    constructor
    · unfold Service._brands Service.brandsValue
      rw [h]
      rfl
    · rfl
  · intro b ikvs hb
    simp only [Brand.oid, pyGet, pyGetD, hb]

set_option maxRecDepth 100000

/-- The root-page slice (sans final brace) of the C6 fixture. -/
def c6Content : List Char :=
  ("\x7b\"content\":\x7b\"genres\":\x7b\"brands\":[\x7b\"channels\":5," ++
   "\"_id\":\x7b\"$oid\":\"abc\"\x7d,\"canonical_url\":\"u\"," ++
   "\"param\":\"p\",\"name\":\"n\"\x7d]\x7d\x7d").data

/-- A concrete `json.loads` table for the C6 fixture. -/
def c6Loads : List Char → Option Json := fun s =>
  if s = c6Content ++ ['\x7d'] then some c6State else none

/-- Witness for C6 on a concrete root page, plus the absent-`$oid` case. -/
theorem C6_single_brand_oid_witness :
    Service._brands c6Loads (c4Page c6Content) = .ok [c6Brand] ∧
    c6Brand.oid = .ok (.str "abc") ∧
    Brand.oid ⟨.num 5, .obj [], .str "u", .str "p", .str "n"⟩ = .ok .null :=
  ⟨((C6_single_brand_oid c6Loads (c4Page c6Content)).1 rfl).1,
   ((C6_single_brand_oid c6Loads (c4Page c6Content)).1 rfl).2,
   (C6_single_brand_oid c6Loads (c4Page c6Content)).2
     ⟨.num 5, .obj [], .str "u", .str "p", .str "n"⟩ [] rfl⟩

theorem channelList_ok (jsonLoads : List Char → Option Json)
    (http : List Char → List Char) (bs : List Brand) (xs : Brand → List Json)
    (hresp : ∀ b ∈ bs, jsonLoads (http (Service.genreUrl b.param)) =
      some (.obj [("channels", .arr (xs b))])) :
    Service.channelList jsonLoads http bs =
      .ok ((bs.map (fun b => (xs b).map (fun c => Channel.mk c))).flatten) := by
  induction bs with
  | nil => rfl
  | cons b rest ih =>
    have hb := hresp b (List.mem_cons_self b rest)
    have hcob : Service.channelsOfBrand jsonLoads http b =
        .ok ((xs b).map (fun c => Channel.mk c)) := by
      unfold Service.channelsOfBrand responseJson
      rw [hb]
      rfl
    have hrest := ih (fun b2 h2 => hresp b2 (List.mem_cons_of_mem b h2))
    simp only [Service.channelList, hcob, hrest, List.map_cons, List.flatten_cons]

/-- The single channel entry of the C7 fixture. -/
def c7Entry : Json :=
  .obj [("_id", .obj [("$oid", .str "1")]), ("name", .str "A"),
    ("description", .str "d")]

/-- Claim C7: `channels` issues, for each brand, a GET to
`<base>/c/m/json/genre/?param=<brand.param>`, decodes the body, and yields
one `Channel` per entry of its `channels` array; on the C7 fixture entry the
resulting channel has id `"1"`, name `"A"` and an absent logo. -/
theorem C7_channels_per_brand
    (jsonLoads : List Char → Option Json) (http : List Char → List Char) :
    (∀ (bs : List Brand) (xs : Brand → List Json),
      Service._brands jsonLoads http = .ok bs →
      (∀ b ∈ bs, jsonLoads (http (Service.genreUrl b.param)) =
        some (.obj [("channels", .arr (xs b))])) →
      Service.channels jsonLoads http =
        .ok ((bs.map (fun b => (xs b).map (fun c => Channel.mk c))).flatten)) ∧
    (Service.genreUrl (.str "p") =
      "https://www.accuradio.com/c/m/json/genre/?param=p".data) ∧
    ((Channel.mk c7Entry).id = .ok (.str "1") ∧
     (Channel.mk c7Entry).name = .ok (.str "A") ∧
     Channel.logo (Channel.mk c7Entry) = Json.null) := by
  refine ⟨fun bs xs hb hresp => ?_, rfl, rfl, rfl, rfl⟩
  simp only [Service.channels, hb]
  exact channelList_ok jsonLoads http bs xs hresp

/-- The genre-endpoint body of the C7 fixture. -/
def c7Body : List Char :=
  ("\x7b\"channels\":[\x7b\"_id\":\x7b\"$oid\":\"1\"\x7d," ++
   "\"name\":\"A\",\"description\":\"d\"\x7d]\x7d").data

/-- A concrete `json.loads` table for the C7 fixture (root page plus genre
endpoint). -/
def c7Loads : List Char → Option Json := fun s =>
  if s = c6Content ++ ['\x7d'] then some c6State
  else if s = c7Body then some (.obj [("channels", .arr [c7Entry])])
  else none

/-- A concrete transport for the C7 fixture: the genre endpoint returns
`c7Body`, everything else the root page. -/
def c7Http : List Char → List Char := fun u =>
  if u = Service.genreUrl (.str "p") then c7Body else c4Page c6Content u

/-- Witness for C7: the fixture service yields exactly one channel with the
claimed id, name and logo. -/
theorem C7_channels_per_brand_witness :
    Service.channels c7Loads c7Http = .ok [Channel.mk c7Entry] ∧
    Service.genreUrl (.str "p") =
      "https://www.accuradio.com/c/m/json/genre/?param=p".data ∧
    (Channel.mk c7Entry).id = .ok (.str "1") ∧
    (Channel.mk c7Entry).name = .ok (.str "A") ∧
    Channel.logo (Channel.mk c7Entry) = Json.null :=
  ⟨(C7_channels_per_brand c7Loads c7Http).1 [c6Brand] (fun _ => [c7Entry]) rfl
      (by intro b hb; rw [List.mem_singleton] at hb; subst hb; rfl),
   (C7_channels_per_brand c7Loads c7Http).2⟩

theorem findChannelById_eq_find (cid : Json) (cs : List Channel)
    (hids : ∀ c ∈ cs, isError (Channel.id c) = false) :
    Service.findChannelById cid cs =
      .ok (cs.find? (fun c =>
        match Channel.id c with
        | .ok v => Json.beq v cid
        | .error _ => false)) := by
  induction cs with
  | nil => rfl
  | cons c rest ih =>
    have hc := hids c (List.mem_cons_self c rest)
    cases hid : Channel.id c with
    | error e => rw [hid] at hc; simp [isError] at hc
    | ok v =>
      have hrest := ih (fun c2 h2 => hids c2 (List.mem_cons_of_mem c h2))
      simp only [Service.findChannelById, hid, List.find?_cons]
      cases hbeq : Json.beq v cid
      · simp only [hbeq, Bool.false_eq_true, if_false, hrest]
      · simp only [hbeq, if_true]

/-- Claim C8: `get_channel_by_id` re-fetches the channel sequence and, when
every channel id computes, returns the first channel whose id equals the
requested one, or `None` when no channel matches. -/
theorem C8_get_channel_by_id_first_match
    (jsonLoads : List Char → Option Json) (http : List Char → List Char)
    (cid : Json) (cs : List Channel)
    (hcs : Service.channels jsonLoads http = .ok cs)
    (hids : ∀ c ∈ cs, isError (Channel.id c) = false) :
    Service.get_channel_by_id jsonLoads http cid =
      .ok (cs.find? (fun c =>
        match Channel.id c with
        | .ok v => Json.beq v cid
        | .error _ => false)) := by
  simp only [Service.get_channel_by_id, hcs]
  exact findChannelById_eq_find cid cs hids

/-- Witness for C8 on the C7 fixture: looking up id `"1"` finds the single
channel, looking up `"missing"` finds none. -/
theorem C8_get_channel_by_id_first_match_witness :
    Service.get_channel_by_id c7Loads c7Http (.str "1") =
      .ok (some (Channel.mk c7Entry)) ∧
    Service.get_channel_by_id c7Loads c7Http (.str "missing") = .ok none :=
  ⟨C8_get_channel_by_id_first_match c7Loads c7Http (.str "1") [Channel.mk c7Entry]
      rfl (by intro c hc; rw [List.mem_singleton] at hc; subst hc; rfl),
   C8_get_channel_by_id_first_match c7Loads c7Http (.str "missing") [Channel.mk c7Entry]
      rfl (by intro c hc; rw [List.mem_singleton] at hc; subst hc; rfl)⟩

/-- Counterexample to C9 as stated: on the mapping entry `{"_id": 5}` the
`id` accessor raises `AttributeError` (Python `5 .get` does not exist), so
the accessors are not failure-free on every mapping entry. -/
theorem C9_channel_id_counterexample :
    Channel.id (Channel.mk (.obj [("_id", Json.num 5)])) =
      .error (.attributeError "object has no attribute get".data) := rfl

/-- Claim C9 (amended): `name` and `description` are pure projections that
never fail on a mapping entry, returning `None` when the field is absent;
`id` returns `None` when `_id` or its `$oid` field is absent and never fails
provided the `_id` field, when present, holds a mapping — but it raises when
`_id` holds a non-mapping value. -/
theorem C9_channel_accessors (kvs : List (String × Json)) :
    (Channel.name (Channel.mk (.obj kvs)) = .ok ((kvs.lookup "name").getD .null)) ∧
    (Channel.description (Channel.mk (.obj kvs)) =
      .ok ((kvs.lookup "description").getD .null)) ∧
    (kvs.lookup "_id" = none → Channel.id (Channel.mk (.obj kvs)) = .ok .null) ∧
    (∀ ikvs, kvs.lookup "_id" = some (.obj ikvs) →
      Channel.id (Channel.mk (.obj kvs)) = .ok ((ikvs.lookup "$oid").getD .null)) := by
  refine ⟨rfl, rfl, fun h => ?_, fun ikvs h => ?_⟩
  · simp only [Channel.id, pyGetD, h, Option.getD_none]
    rfl
  · simp only [Channel.id, pyGetD, h, Option.getD_some]
    rfl

/-- Witness for the amended C9 at concrete entries. -/
theorem C9_channel_accessors_witness :
    Channel.name (Channel.mk (.obj [("name", Json.str "A")])) = .ok (.str "A") ∧
    Channel.description (Channel.mk (.obj [("name", Json.str "A")])) = .ok .null ∧
    Channel.id (Channel.mk (.obj [("name", Json.str "A")])) = .ok .null ∧
    Channel.id (Channel.mk (.obj [("_id", Json.obj [("$oid", Json.str "1")])])) =
      .ok (.str "1") :=
  ⟨(C9_channel_accessors [("name", Json.str "A")]).1,
   (C9_channel_accessors [("name", Json.str "A")]).2.1,
   (C9_channel_accessors [("name", Json.str "A")]).2.2.1 rfl,
   (C9_channel_accessors [("_id", Json.obj [("$oid", Json.str "1")])]).2.2.2
     [("$oid", Json.str "1")] rfl⟩

theorem channelList_error_of_mem (jsonLoads : List Char → Option Json)
    (http : List Char → List Char) (bs : List Brand) (b : Brand)
    (hmem : b ∈ bs)
    (herr : isError (Service.channelsOfBrand jsonLoads http b) = true) :
    isError (Service.channelList jsonLoads http bs) = true := by
  induction bs with
  | nil => cases hmem
  | cons b2 rest ih =>
    rcases List.mem_cons.mp hmem with rfl | hmem2
    · cases hcb : Service.channelsOfBrand jsonLoads http b
      · simp [Service.channelList, hcb, isError]
      · rw [hcb] at herr; simp [isError] at herr
    · cases hcb : Service.channelsOfBrand jsonLoads http b2
      · simp [Service.channelList, hcb, isError]
      · have hrest := ih hmem2
        cases hcl : Service.channelList jsonLoads http rest
        · simp [Service.channelList, hcb, hcl, isError]
        · rw [hcl] at hrest; simp [isError] at hrest

/-- Claim C10: when the decoded genre response for some brand lacks the
`channels` key, the channel sequence raises rather than treating the brand
as having no channels; with a single brand the error is precisely the
`TypeError` from iterating `None`. -/
theorem C10_missing_channels_key_errors
    (jsonLoads : List Char → Option Json) (http : List Char → List Char) :
    (∀ (bs : List Brand) (b : Brand) (jkvs : List (String × Json)),
      Service._brands jsonLoads http = .ok bs → b ∈ bs →
      jsonLoads (http (Service.genreUrl b.param)) = some (.obj jkvs) →
      jkvs.lookup "channels" = none →
      isError (Service.channels jsonLoads http) = true) ∧
    (∀ (b : Brand) (jkvs : List (String × Json)),
      Service._brands jsonLoads http = .ok [b] →
      jsonLoads (http (Service.genreUrl b.param)) = some (.obj jkvs) →
      jkvs.lookup "channels" = none →
      Service.channels jsonLoads http =
        .error (.typeError "NoneType object is not iterable".data)) := by
  have hcob : ∀ (b : Brand) (jkvs : List (String × Json)),
      jsonLoads (http (Service.genreUrl b.param)) = some (.obj jkvs) →
      jkvs.lookup "channels" = none →
      Service.channelsOfBrand jsonLoads http b =
        .error (.typeError "NoneType object is not iterable".data) := by
    intro b jkvs hresp hnochan
    unfold Service.channelsOfBrand responseJson
    rw [hresp]
    simp only [pyGet, pyGetD, hnochan, Option.getD_none]
    rfl
  constructor
  · intro bs b jkvs hb hmem hresp hnochan
    simp only [Service.channels, hb]
    exact channelList_error_of_mem jsonLoads http bs b hmem
      (by rw [hcob b jkvs hresp hnochan]; rfl)
  · intro b jkvs hb hresp hnochan
    simp only [Service.channels, hb, Service.channelList, hcob b jkvs hresp hnochan]

/-- A concrete `json.loads` table for the C10 fixture: the genre endpoint
returns an object with no `channels` key. -/
def c10Loads : List Char → Option Json := fun s =>
  if s = c6Content ++ ['\x7d'] then some c6State
  else if s = "\x7b\"other\":1\x7d".data then some (.obj [("other", .num 1)])
  else none

/-- A concrete transport for the C10 fixture. -/
def c10Http : List Char → List Char := fun u =>
  if u = Service.genreUrl (.str "p") then "\x7b\"other\":1\x7d".data
  else c4Page c6Content u

/-- Witness for C10 on the fixture service. -/
theorem C10_missing_channels_key_errors_witness :
    isError (Service.channels c10Loads c10Http) = true ∧
    Service.channels c10Loads c10Http =
      .error (.typeError "NoneType object is not iterable".data) :=
  ⟨(C10_missing_channels_key_errors c10Loads c10Http).1 [c6Brand] c6Brand
      [("other", .num 1)] rfl (by simp) rfl rfl,
   (C10_missing_channels_key_errors c10Loads c10Http).2 c6Brand
      [("other", .num 1)] rfl rfl rfl⟩
